import Mathlib

/-!
# Verification of the customer-search and card-selection core

Shallow embedding of the bank-teller customer-search / card-selection
pipeline:

* `src/lib/utils/card-security.utils.ts` — masking, brand detection,
  expiration/usability checks, transaction gate;
* `src/lib/utils/search-validation.ts` — filter counting and validation;
* `src/lib/actions/customer-search.ts` — sequential-narrowing search;
* the card query actions (`getCustomerCards`, `getCardById`).

Strings are Lean `String`s; JavaScript's falsiness test on a string field
(`if (x)`) is embedded as `x ≠ ""`.  Database tables become lists of rows;
a query is a pure list operation.  Fallible operations return
`Except String α`; a boolean `failure` flag on the database models "any
underlying data-access failure".  The wall clock (`new Date()`) becomes
explicit `currentMonth`/`currentYear` parameters.
-/

namespace BankingApp

/-- The whitespace characters removed by the JavaScript `\s`-stripping
`replace(/\s/g, '')` calls (ASCII whitespace; the inputs of interest are
digits, letters and spaces). -/
def jsWs (c : Char) : Bool :=
  c == ' ' || c == '\t' || c == '\n' || c == '\r'

/-- `maskCardNumber` from `card-security.utils.ts`: numbers shorter than
4 characters collapse to the `"****"` sentinel, otherwise the last 4
characters are appended to three masked groups. -/
def maskCardNumber (cardNumber : String) : String :=
  if cardNumber == "" || cardNumber.length < 4 then
    "****"
  else
    "**** **** **** " ++ String.mk (cardNumber.data.drop (cardNumber.data.length - 4))

/-- `getLastFourDigits` from `card-security.utils.ts`: empty string when the
input has fewer than 4 characters, else the last 4 characters
(`slice(-4)`). -/
def getLastFourDigits (cardNumber : String) : String :=
  if cardNumber == "" || cardNumber.length < 4 then
    ""
  else
    String.mk (cardNumber.data.drop (cardNumber.data.length - 4))

/-- `isValidCardLength`: digit-count (after stripping whitespace) must be
one of 13, 14, 15, 16, 19. -/
def isValidCardLength (cardNumber : String) : Bool :=
  if cardNumber == "" then false
  else
    let length := (cardNumber.data.filter (fun c => !jsWs c)).length
    [13, 14, 15, 16, 19].any (fun n => n == length)

/-- Value of the longest leading digit run, `none` when the first character
is not a digit (the digit-collecting core of JavaScript `parseInt(s, 10)`). -/
def digitRunVal (l : List Char) : Option Nat :=
  let ds := l.takeWhile Char.isDigit
  if ds.isEmpty then none
  else some (ds.foldl (fun a c => 10 * a + (c.toNat - 48)) 0)

/-- JavaScript `parseInt(s, 10)`: skip leading whitespace, accept an
optional sign, then read the longest digit prefix; `none` models `NaN`. -/
def parseIntJS (s : String) : Option Int :=
  match s.data.dropWhile jsWs with
  | '-' :: rest => (digitRunVal rest).map (fun n => -(n : Int))
  | '+' :: rest => (digitRunVal rest).map (fun n => (n : Int))
  | l => (digitRunVal l).map (fun n => (n : Int))

/-- JavaScript `String.prototype.split` with a one-character separator,
on the character list.  `"a/b".split('/') = ["a","b"]`, `"".split('/') = [""]`. -/
def splitChar (sep : Char) : List Char → List (List Char)
  | [] => [[]]
  | c :: t =>
    let r := splitChar sep t
    if c == sep then [] :: r
    else (c :: r.headD []) :: r.tail

/-- `s.split(sep)` as a list of strings. -/
def jsSplit (s : String) (sep : Char) : List String :=
  (splitChar sep s.data).map String.mk

/-- ASCII lower-casing of one character (the statuses handled by
`toLowerCase()` in the source are ASCII). -/
def charLower (c : Char) : Char :=
  if decide ('A' ≤ c) && decide (c ≤ 'Z') then Char.ofNat (c.toNat + 32) else c

/-- JavaScript `toLowerCase()` restricted to ASCII. -/
def jsToLower (s : String) : String :=
  String.mk (s.data.map charLower)

/-- JavaScript `trim()`: strip leading and trailing whitespace (interior
whitespace is kept). -/
def jsTrim (s : String) : String :=
  String.mk (((s.data.dropWhile jsWs).reverse.dropWhile jsWs).reverse)

/-- `isCardExpired` from `card-security.utils.ts`.  The current date
(`new Date()`) is passed explicitly as `currentMonth` (1–12) and
`currentYear`.  A string without `/`, or whose month segment does not
parse, is treated as expired; `parseInt("20" ++ year)` always succeeds
since the argument starts with a digit, mirroring the unreachable
`isNaN(expYear)` branch of the source. -/
def isCardExpired (expirationDate : String) (currentMonth currentYear : Int) : Bool :=
  if expirationDate == "" || !(expirationDate.data.any (fun c => c == '/')) then true
  else
    let parts := jsSplit expirationDate '/'
    let month := parts.headD ""
    let year := parts.getD 1 ""
    match parseIntJS month, parseIntJS ("20" ++ year) with
    | some expMonth, some expYear =>
      if expYear < currentYear then true
      else if expYear == currentYear && expMonth < currentMonth then true
      else false
    | _, _ => true

/-- `isCardUsable`: status case-insensitively equals `active`. -/
def isCardUsable (status : String) : Bool :=
  jsToLower status == "active"

/-- The test `/^4/.test(cleaned)` (Visa). -/
def visaTest : List Char → Bool
  | '4' :: _ => true
  | _ => false

/-- The tests `/^5[1-5]/` and `/^2(2[2-9][0-9]|[3-6][0-9]{2}|7[0-1][0-9]|720)/`
(MasterCard), transcribed alternative by alternative. -/
def masterCardTest (l : List Char) : Bool :=
  (match l with
   | '5' :: c :: _ => decide ('1' ≤ c) && decide (c ≤ '5')
   | _ => false)
  ||
  (match l with
   | '2' :: c1 :: c2 :: c3 :: _ =>
     (c1 == '2' && decide ('2' ≤ c2) && decide (c2 ≤ '9') && c3.isDigit)
     || (decide ('3' ≤ c1) && decide (c1 ≤ '6') && c2.isDigit && c3.isDigit)
     || (c1 == '7' && decide ('0' ≤ c2) && decide (c2 ≤ '1') && c3.isDigit)
     || (c1 == '7' && c2 == '2' && c3 == '0')
   | _ => false)

/-- The test `/^3[47]/` (American Express). -/
def amexTest : List Char → Bool
  | '3' :: c :: _ => c == '4' || c == '7'
  | _ => false

/-- The test `/^6011|^64[4-9]|^65|^622(1[2-9][6-9]|[2-8][0-9]{2}|9[0-1][0-9]|92[0-5])/`
(Discover), transcribed alternative by alternative. -/
def discoverTest (l : List Char) : Bool :=
  (match l with
   | '6' :: '0' :: '1' :: '1' :: _ => true
   | _ => false)
  ||
  (match l with
   | '6' :: '4' :: c :: _ => decide ('4' ≤ c) && decide (c ≤ '9')
   | _ => false)
  ||
  (match l with
   | '6' :: '5' :: _ => true
   | _ => false)
  ||
  (match l with
   | '6' :: '2' :: '2' :: c1 :: c2 :: c3 :: _ =>
     (c1 == '1' && decide ('2' ≤ c2) && decide (c2 ≤ '9')
        && decide ('6' ≤ c3) && decide (c3 ≤ '9'))
     || (decide ('2' ≤ c1) && decide (c1 ≤ '8') && c2.isDigit && c3.isDigit)
     || (c1 == '9' && decide ('0' ≤ c2) && decide (c2 ≤ '1') && c3.isDigit)
     || (c1 == '9' && c2 == '2' && decide ('0' ≤ c3) && decide (c3 ≤ '5'))
   | _ => false)

/-- The test `/^3(0[0-5]|[68])/` (Diners Club). -/
def dinersTest : List Char → Bool
  | '3' :: '0' :: c :: _ => decide ('0' ≤ c) && decide (c ≤ '5')
  | '3' :: '6' :: _ => true
  | '3' :: '8' :: _ => true
  | _ => false

/-- `getCardBrand` from `card-security.utils.ts`: whitespace is stripped,
then the IIN regexes are tried in source order. -/
def getCardBrand (cardNumber : String) : String :=
  if cardNumber == "" then "Unknown"
  else
    let cleaned := cardNumber.data.filter (fun c => !jsWs c)
    if visaTest cleaned then "Visa"
    else if masterCardTest cleaned then "MasterCard"
    else if amexTest cleaned then "American Express"
    else if discoverTest cleaned then "Discover"
    else if dinersTest cleaned then "Diners Club"
    else "Unknown"

/-- The card-shaped argument of `validateCardForTransaction`. -/
structure TransactionCard where
  cardNumber : String
  expirationDate : String
  status : String
  deriving Repr, DecidableEq

/-- The result record of `validateCardForTransaction`. -/
structure TransactionValidation where
  isValid : Bool
  error : Option String
  deriving Repr, DecidableEq

/-- `validateCardForTransaction`: length, then expiration, then usability,
returning the first failing reason. -/
def validateCardForTransaction (card : TransactionCard)
    (currentMonth currentYear : Int) : TransactionValidation :=
  if !isValidCardLength card.cardNumber then
    { isValid := false, error := some "Número de tarjeta inválido" }
  else if isCardExpired card.expirationDate currentMonth currentYear then
    { isValid := false, error := some "La tarjeta ha expirado" }
  else if !isCardUsable card.status then
    { isValid := false,
      error := some ("La tarjeta está " ++ card.status ++
        ". Solo tarjetas activas pueden ser utilizadas.") }
  else
    { isValid := true, error := none }

/-! ## Filter validation (`search-validation.ts`) -/

/-- `CustomerSearchFilters` from `lib/types/customer.ts`: the 14 optional
search fields.  An unfilled field is the empty string (JavaScript
falsiness). -/
structure CustomerSearchFilters where
  primaryPhone : String := ""
  secondaryPhone : String := ""
  clientNumber : String := ""
  firstName : String := ""
  lastName : String := ""
  secondLastName : String := ""
  dateOfBirth : String := ""
  rfc : String := ""
  stateId : String := ""
  municipalityId : String := ""
  neighborhoodId : String := ""
  postalCode : String := ""
  ife : String := ""
  passport : String := ""
  deriving Repr, DecidableEq

/-- One field-scoped error of a `ValidationResult`. -/
structure ValidationError where
  field : String
  message : String
  deriving Repr, DecidableEq

/-- The result record of `validateSearchFilters`. -/
structure ValidationResult where
  isValid : Bool
  errors : List ValidationError
  generalError : Option String := none
  deriving Repr, DecidableEq

/-- `validatePhoneNumber`: empty is valid; otherwise exactly 10 digits
(`/^\d{10}$/`). -/
def validatePhoneNumber (phone : String) : Bool :=
  if phone == "" then true
  else phone.data.length == 10 && phone.data.all Char.isDigit

/-- One character of the RFC alphabet (`[A-Z0-9]` with the `i` flag, i.e.
ASCII letters of either case, or digits). -/
def rfcChar (c : Char) : Bool :=
  c.isDigit || (decide ('A' ≤ c) && decide (c ≤ 'Z')) || (decide ('a' ≤ c) && decide (c ≤ 'z'))

/-- `validateRFC`: empty is valid; otherwise exactly 13 alphanumeric
characters, case-insensitive (`/^[A-Z0-9]{13}$/i`). -/
def validateRFC (rfc : String) : Bool :=
  if rfc == "" then true
  else rfc.data.length == 13 && rfc.data.all rfcChar

/-- `validatePostalCode`: empty is valid; otherwise exactly 5 digits
(`/^\d{5}$/`). -/
def validatePostalCode (postalCode : String) : Bool :=
  if postalCode == "" then true
  else postalCode.data.length == 5 && postalCode.data.all Char.isDigit

/-- `countFilledFilters`: each non-empty field adds one, except that the
four address components together add at most one. -/
def countFilledFilters (f : CustomerSearchFilters) : Nat :=
  (if f.primaryPhone != "" then 1 else 0)
  + (if f.secondaryPhone != "" then 1 else 0)
  + (if f.clientNumber != "" then 1 else 0)
  + (if f.firstName != "" then 1 else 0)
  + (if f.lastName != "" then 1 else 0)
  + (if f.secondLastName != "" then 1 else 0)
  + (if f.dateOfBirth != "" then 1 else 0)
  + (if f.rfc != "" then 1 else 0)
  + (if f.stateId != "" || f.municipalityId != "" || f.neighborhoodId != ""
        || f.postalCode != "" then 1 else 0)
  + (if f.ife != "" then 1 else 0)
  + (if f.passport != "" then 1 else 0)

/-- The general (non-field) error text of the minimum-filter rule. -/
def minFiltersMessage : String :=
  "Campos necesarios faltantes. Por favor, llena al menos dos campos para realizar la búsqueda."

/-- `validateSearchFilters`: Rule 1 (minimum two filled filters) short-circuits
with a general error; Rules 2–5 accumulate one field error per malformed
field. -/
def validateSearchFilters (f : CustomerSearchFilters) : ValidationResult :=
  let filledFiltersCount := countFilledFilters f
  if filledFiltersCount < 2 then
    { isValid := false, errors := [], generalError := some minFiltersMessage }
  else
    let errors :=
      (if f.primaryPhone != "" && !validatePhoneNumber f.primaryPhone then
        [{ field := "primaryPhone",
           message := "El teléfono de casa debe tener 10 dígitos numéricos" }]
       else [])
      ++ (if f.secondaryPhone != "" && !validatePhoneNumber f.secondaryPhone then
        [{ field := "secondaryPhone",
           message := "El número celular debe tener 10 dígitos numéricos" }]
       else [])
      ++ (if f.rfc != "" && !validateRFC f.rfc then
        [{ field := "rfc",
           message := "El RFC debe tener 13 caracteres alfanuméricos" }]
       else [])
      ++ (if f.postalCode != "" && !validatePostalCode f.postalCode then
        [{ field := "postalCode",
           message := "El código postal debe tener 5 dígitos numéricos" }]
       else [])
    { isValid := errors.isEmpty, errors := errors, generalError := none }

/-! ## Customer registry and the sequential-narrowing search
(`customer-search.ts`)

Each relational table becomes a list of rows.  Only the columns the search
touches are modelled; nullable columns are `Option String`.  SQL
`LIKE '%v%'` on these values is a case-sensitive substring test (the filter
values are names without wildcard metacharacters), and `LIKE`/`=` on a
`NULL` column never matches. -/

/-- A `customers` row (the columns selected by the search and card
actions). -/
structure CustomerRow where
  id : String
  firstName : String
  lastName : String
  middleName : Option String
  status : String
  deriving Repr, DecidableEq

/-- A `phones` row. -/
structure PhoneRow where
  id : String
  customerId : String
  number : String
  phoneType : String
  deriving Repr, DecidableEq

/-- A `government_ids` row; `idType` is `"RFC"`, `"IFE"` or `"Passport"`. -/
structure GovernmentIdRow where
  id : String
  customerId : String
  idType : String
  number : String
  deriving Repr, DecidableEq

/-- An `addresses` row. -/
structure AddressRow where
  id : String
  customerId : String
  street : String
  postalCode : Option String
  stateId : String
  municipalityId : String
  neighborhoodId : Option String
  isPrimary : Bool
  deriving Repr, DecidableEq

/-- A row of one of the reference tables `states` / `municipalities` /
`neighborhoods` (only `id` and `name` are read by the search). -/
structure NamedRow where
  id : String
  name : String
  deriving Repr, DecidableEq

/-- The registry state visible to `searchCustomers`. -/
structure RegistryDb where
  customers : List CustomerRow
  phones : List PhoneRow
  governmentIds : List GovernmentIdRow
  addresses : List AddressRow
  states : List NamedRow
  municipalities : List NamedRow
  neighborhoods : List NamedRow
  deriving Repr

/-- `pat` occurs as a contiguous sublist of `l`. -/
def listInfixOf (pat : List Char) : List Char → Bool
  | [] => pat.isEmpty
  | c :: t => pat.isPrefixOf (c :: t) || listInfixOf pat t

/-- SQL `column LIKE '%pat%'` on a non-null text value: case-sensitive
substring containment. -/
def likeContains (value pat : String) : Bool :=
  listInfixOf pat.data value.data

/-- SQL `column LIKE '%pat%'` on a nullable column: `NULL` never matches. -/
def likeContainsOpt (value : Option String) (pat : String) : Bool :=
  match value with
  | none => false
  | some v => likeContains v pat

/-- SQL `column = pat` on a nullable column: `NULL` never matches. -/
def eqOpt (value : Option String) (pat : String) : Bool :=
  match value with
  | none => false
  | some v => v == pat

/-- The list of name conditions built at the top of `searchCustomers`
(the `dateOfBirth` branch of the source is empty — its only statement is
commented out — so it contributes nothing). -/
def nameConditions (f : CustomerSearchFilters) : List (CustomerRow → Bool) :=
  (if f.firstName != "" then [fun c => likeContains c.firstName f.firstName] else [])
  ++ (if f.lastName != "" then [fun c => likeContains c.lastName f.lastName] else [])
  ++ (if f.secondLastName != "" then
        [fun c => likeContainsOpt c.middleName f.secondLastName] else [])

/-- The phone conditions (`eq(phones.number, …)` per supplied phone filter,
OR-ed by `or(...)`). -/
def phoneConditions (f : CustomerSearchFilters) : List (PhoneRow → Bool) :=
  (if f.primaryPhone != "" then [fun p => p.number == f.primaryPhone] else [])
  ++ (if f.secondaryPhone != "" then [fun p => p.number == f.secondaryPhone] else [])

/-- The government-id conditions (each an `and(type = …, number = …)`,
OR-ed by `or(...)`). -/
def govIdConditions (f : CustomerSearchFilters) : List (GovernmentIdRow → Bool) :=
  (if f.rfc != "" then [fun g => g.idType == "RFC" && g.number == f.rfc] else [])
  ++ (if f.ife != "" then [fun g => g.idType == "IFE" && g.number == f.ife] else [])
  ++ (if f.passport != "" then
        [fun g => g.idType == "Passport" && g.number == f.passport] else [])

/-- The address conditions (AND-ed by `and(...)`, so they must hold of one
address row). -/
def addressConditions (f : CustomerSearchFilters) : List (AddressRow → Bool) :=
  (if f.stateId != "" then [fun a => a.stateId == f.stateId] else [])
  ++ (if f.municipalityId != "" then [fun a => a.municipalityId == f.municipalityId] else [])
  ++ (if f.neighborhoodId != "" then [fun a => eqOpt a.neighborhoodId f.neighborhoodId] else [])
  ++ (if f.postalCode != "" then [fun a => eqOpt a.postalCode f.postalCode] else [])

/-- The sequential-narrowing part of `searchCustomers`: base name query
(`and(...)` over `nameConditions`, or `1=1` when none), then the phone,
government-id and address passes, each computing a customer-id list and
keeping the running results whose id the list `includes`. -/
def searchNarrow (f : CustomerSearchFilters) (db : RegistryDb) : List CustomerRow :=
  let results := db.customers.filter (fun c => (nameConditions f).all (fun p => p c))
  let results :=
    if f.primaryPhone != "" || f.secondaryPhone != "" then
      let ids := (db.phones.filter (fun p => (phoneConditions f).any (fun q => q p))).map
        (fun p => p.customerId)
      results.filter (fun r => ids.any (fun x => x == r.id))
    else results
  let results :=
    if f.rfc != "" || f.ife != "" || f.passport != "" then
      let ids := (db.governmentIds.filter (fun g => (govIdConditions f).any (fun q => q g))).map
        (fun g => g.customerId)
      results.filter (fun r => ids.any (fun x => x == r.id))
    else results
  let results :=
    if f.stateId != "" || f.municipalityId != "" || f.neighborhoodId != ""
        || f.postalCode != "" then
      let ids := (db.addresses.filter (fun a => (addressConditions f).all (fun q => q a))).map
        (fun a => a.customerId)
      results.filter (fun r => ids.any (fun x => x == r.id))
    else results
  results

/-- One enriched row of `CustomerSearchResponse.data`. -/
structure CustomerSearchResult where
  id : String
  customerNumber : String
  firstName : String
  lastName : String
  secondLastName : Option String
  rfc : Option String
  status : String
  primaryPhone : String
  primaryAddress : String
  deriving Repr, DecidableEq

/-- The response record of `searchCustomers`. -/
structure CustomerSearchResponse where
  data : List CustomerSearchResult
  totalCount : Nat
  deriving Repr, DecidableEq

/-- JavaScript template-literal rendering of a possibly-`null` string
(`null` prints as `"null"`). -/
def jsRender : Option String → String
  | none => "null"
  | some s => s

/-- The enrichment step of `searchCustomers` for one surviving candidate:
first phone (`limit 1`), first RFC record (`?.number || null`), and the
primary address left-joined to the location names and formatted as
`"{street}, {neighborhood}, {municipality}, {state} {postalCode}"`,
trimmed.  A missing primary address yields the empty string. -/
def enrichCustomer (db : RegistryDb) (c : CustomerRow) : CustomerSearchResult :=
  let primaryPhone :=
    match (db.phones.filter (fun p => p.customerId == c.id)).head? with
    | none => ""
    | some p => p.number
  let rfc :=
    match (db.governmentIds.filter
        (fun g => g.customerId == c.id && g.idType == "RFC")).head? with
    | none => none
    | some g => if g.number == "" then none else some g.number
  let primaryAddress :=
    match (db.addresses.filter (fun a => a.customerId == c.id && a.isPrimary)).head? with
    | none => ""
    | some a =>
      let stateName := (db.states.find? (fun (s : NamedRow) => s.id == a.stateId)).map NamedRow.name
      let municipalityName :=
        (db.municipalities.find? (fun (m : NamedRow) => m.id == a.municipalityId)).map NamedRow.name
      let neighborhoodName :=
        match a.neighborhoodId with
        | none => none
        | some nid => (db.neighborhoods.find? (fun (n : NamedRow) => n.id == nid)).map NamedRow.name
      -- `${neighborhoodName || ""}` renders null (or empty) as "";
      -- the other nullable components are rendered directly, so a null
      -- municipality/state/postal code prints as "null".
      jsTrim (a.street ++ ", " ++ neighborhoodName.getD ""
        ++ ", " ++ jsRender municipalityName ++ ", " ++ jsRender stateName
        ++ " " ++ jsRender a.postalCode)
  { id := c.id
    customerNumber := String.mk (c.id.data.take 10)
    firstName := c.firstName
    lastName := c.lastName
    secondLastName := c.middleName
    rfc := rfc
    status := c.status
    primaryPhone := primaryPhone
    primaryAddress := primaryAddress }

/-- `searchCustomers`: narrow, then enrich; `totalCount` is the length of
the enriched list. -/
def searchCustomers (f : CustomerSearchFilters) (db : RegistryDb) : CustomerSearchResponse :=
  let enrichedResults := (searchNarrow f db).map (enrichCustomer db)
  { data := enrichedResults, totalCount := enrichedResults.length }

/-- The single search predicate described by the specification, for the
refinement comparison: AND semantics across the filter categories, OR
semantics within the primaryPhone/secondaryPhone pair, OR semantics among
the rfc/ife/passport conditions, and AND semantics among the supplied
address predicates evaluated on one address record.  A category imposed by
no supplied filter does not constrain the customer. -/
def specSearchPredicate (f : CustomerSearchFilters) (db : RegistryDb)
    (c : CustomerRow) : Bool :=
  (f.firstName == "" || likeContains c.firstName f.firstName)
  && (f.lastName == "" || likeContains c.lastName f.lastName)
  && (f.secondLastName == "" || likeContainsOpt c.middleName f.secondLastName)
  && ((f.primaryPhone == "" && f.secondaryPhone == "")
      || db.phones.any (fun p => p.customerId == c.id
           && ((f.primaryPhone != "" && p.number == f.primaryPhone)
               || (f.secondaryPhone != "" && p.number == f.secondaryPhone))))
  && ((f.rfc == "" && f.ife == "" && f.passport == "")
      || db.governmentIds.any (fun g => g.customerId == c.id
           && ((f.rfc != "" && g.idType == "RFC" && g.number == f.rfc)
               || (f.ife != "" && g.idType == "IFE" && g.number == f.ife)
               || (f.passport != "" && g.idType == "Passport" && g.number == f.passport))))
  && ((f.stateId == "" && f.municipalityId == "" && f.neighborhoodId == ""
        && f.postalCode == "")
      || db.addresses.any (fun a => a.customerId == c.id
           && (f.stateId == "" || a.stateId == f.stateId)
           && (f.municipalityId == "" || a.municipalityId == f.municipalityId)
           && (f.neighborhoodId == "" || eqOpt a.neighborhoodId f.neighborhoodId)
           && (f.postalCode == "" || eqOpt a.postalCode f.postalCode)))

/-! ## Card query layer (`lib/actions/cards.ts`) -/

/-- A calendar date as stored in the `date` columns (what
`getMonth() + 1` / `getFullYear()` observe on the parsed value). -/
structure PlainDate where
  year : Nat
  month : Nat
  day : Nat
  deriving Repr, DecidableEq

/-- A `cards` row. -/
structure CardRow where
  id : String
  customerId : String
  number : String
  cardType : String
  status : String
  issuanceDate : PlainDate
  expirationDate : Option PlainDate
  deriving Repr, DecidableEq

/-- The database visible to the card actions.  `failure` models "any
underlying data-access failure": when set, every query rejects, which the
actions' catch-all turns into their single fetch-failure error. -/
structure CardsDb where
  customers : List CustomerRow
  cards : List CardRow
  failure : Bool
  deriving Repr

deriving instance DecidableEq for Except

/-- One database read: the selected rows on success, a rejected promise
when the data-access layer is failing. -/
def dbSelect {α : Type} (db : CardsDb) (rows : List α) : Except String (List α) :=
  if db.failure then Except.error "Database error" else Except.ok rows

/-- The card view returned by the card actions (`CustomerCardData`). -/
structure CustomerCardData where
  id : String
  cardNumber : String
  cardType : String
  expirationDate : String
  cardholderName : String
  status : String
  issuer : String
  lastFourDigits : String
  deriving Repr, DecidableEq

/-- `String(n).padStart(2, '0')`. -/
def pad2 (s : String) : String :=
  if s.data.length == 0 then "00"
  else if s.data.length == 1 then "0" ++ s
  else s

/-- The MM/YY formatting of a card's expiration date
(`getMonth() + 1` zero-padded, slash, last two characters of the year);
a missing date formats as `"N/A"`. -/
def formatExpirationDate : Option PlainDate → String
  | none => "N/A"
  | some d =>
    pad2 (toString d.month) ++ "/" ++ String.mk ((toString d.year).data.drop
      ((toString d.year).data.length - 2))

/-- The display status: registry `expired` becomes `blocked`, `active`
stays `active`, anything else becomes `inactive`. -/
def mapCardStatus (status : String) : String :=
  if status == "active" then "active"
  else if status == "expired" then "blocked"
  else "inactive"

/-- The cardholder name: `` `${firstName} ${middleName || ''} ${lastName}`.trim() ``. -/
def buildCardholderName (customer : CustomerRow) : String :=
  jsTrim (customer.firstName ++ " " ++ (customer.middleName.getD "") ++ " "
    ++ customer.lastName)

/-- The `CustomerCardData` view built for one card of a customer (shared
shape of the mapping in `getCustomerCards` and `getCardById`). -/
def buildCardView (customer : CustomerRow) (card : CardRow) : CustomerCardData :=
  { id := card.id
    cardNumber := card.number
    cardType := card.cardType
    expirationDate := formatExpirationDate card.expirationDate
    cardholderName := buildCardholderName customer
    status := mapCardStatus card.status
    issuer := "Banco Nacional"
    lastFourDigits := getLastFourDigits card.number }

/-- The body of `getCustomerCards` before its catch-all: reject an empty
customer id, look the customer up (`limit 1`), return `[]` when absent,
else map the customer's cards to views. -/
def getCustomerCardsImpl (db : CardsDb) (customerId : String) :
    Except String (List CustomerCardData) :=
  if customerId == "" || jsTrim customerId == "" then
    Except.error "Customer ID is required"
  else
    match dbSelect db ((db.customers.filter (fun c => c.id == customerId)).take 1) with
    | Except.error e => Except.error e
    | Except.ok [] => Except.ok []
    | Except.ok (customer :: _) =>
      match dbSelect db (db.cards.filter (fun c => c.customerId == customerId)) with
      | Except.error e => Except.error e
      | Except.ok customerCards =>
        Except.ok (customerCards.map (fun card => buildCardView customer card))

/-- `getCustomerCards`: any error of the body is caught and re-raised as
the single "Failed to fetch customer cards" condition. -/
def getCustomerCards (db : CardsDb) (customerId : String) :
    Except String (List CustomerCardData) :=
  match getCustomerCardsImpl db customerId with
  | Except.ok v => Except.ok v
  | Except.error _ => Except.error "Failed to fetch customer cards"

/-- The body of `getCardById` before its catch-all: reject an empty card
id, inner-join the card to its customer (`limit 1`), `none` when absent,
else build the view. -/
def getCardByIdImpl (db : CardsDb) (cardId : String) :
    Except String (Option CustomerCardData) :=
  if cardId == "" || jsTrim cardId == "" then
    Except.error "Card ID is required"
  else
    match dbSelect db (((db.cards.filter (fun c => c.id == cardId)).filterMap
        (fun card => (db.customers.find? (fun cu => cu.id == card.customerId)).map
          (fun cu => (card, cu)))).take 1) with
    | Except.error e => Except.error e
    | Except.ok [] => Except.ok none
    | Except.ok ((card, customer) :: _) => Except.ok (some (buildCardView customer card))

/-- `getCardById`: any error of the body is caught and re-raised as the
single "Failed to fetch card" condition. -/
def getCardById (db : CardsDb) (cardId : String) :
    Except String (Option CustomerCardData) :=
  match getCardByIdImpl db cardId with
  | Except.ok v => Except.ok v
  | Except.error _ => Except.error "Failed to fetch card"

/-! ## Auxiliary notions used by the statements -/

/-- The primary-phone filter is supplied but malformed (the condition of
validation Rule 2). -/
def badPrimaryPhone (f : CustomerSearchFilters) : Bool :=
  f.primaryPhone != "" && !validatePhoneNumber f.primaryPhone

/-- The secondary-phone filter is supplied but malformed (Rule 3). -/
def badSecondaryPhone (f : CustomerSearchFilters) : Bool :=
  f.secondaryPhone != "" && !validatePhoneNumber f.secondaryPhone

/-- The rfc filter is supplied but malformed (Rule 4). -/
def badRfc (f : CustomerSearchFilters) : Bool :=
  f.rfc != "" && !validateRFC f.rfc

/-- The postal-code filter is supplied but malformed (Rule 5). -/
def badPostalCode (f : CustomerSearchFilters) : Bool :=
  f.postalCode != "" && !validatePostalCode f.postalCode

/-- The specification's "MM/YY form": two digits, a slash, two digits. -/
def specMMYYForm (s : String) : Bool :=
  match s.data with
  | [m1, m2, '/', y1, y2] => m1.isDigit && m2.isDigit && y1.isDigit && y2.isDigit
  | _ => false

/-- A concrete customer without a middle name, used by the card-action
counterexamples and witnesses. -/
def exCustomerJohn : CustomerRow :=
  { id := "c1", firstName := "John", lastName := "Doe", middleName := none,
    status := "active" }

/-- A concrete card of `exCustomerJohn` whose stored number has 16
characters. -/
def exCard : CardRow :=
  { id := "card-1", customerId := "c1", number := "4532123456789012",
    cardType := "debit", status := "active", issuanceDate := ⟨2020, 1, 1⟩,
    expirationDate := some ⟨2030, 12, 31⟩ }

/-- A healthy concrete card database. -/
def exCardsDb : CardsDb :=
  { customers := [exCustomerJohn], cards := [exCard], failure := false }

/-- The same database with the data-access layer failing. -/
def exCardsDbFail : CardsDb :=
  { customers := [exCustomerJohn], cards := [exCard], failure := true }

/-! ## Theorems -/

/-- C3: for every filter set whose filled-group count is less than 2 (the
four address fields contributing at most one via `countFilledFilters`),
`validateSearchFilters` returns `isValid = false` with the general error
set and an empty `errors` array, regardless of the individual field
values. -/
theorem claim_C3_minimum_filter_gate (f : CustomerSearchFilters)
    (h : countFilledFilters f < 2) :
    validateSearchFilters f =
      { isValid := false, errors := [], generalError := some minFiltersMessage } := by
  unfold validateSearchFilters
  simp [h]

/-- Witness for C3: a single malformed primary phone is one filled group,
so the gate fires and no field-format error is reported. -/
theorem claim_C3_witness :
    countFilledFilters { primaryPhone := "123" } < 2 ∧
      validateSearchFilters { primaryPhone := "123" } =
        { isValid := false, errors := [], generalError := some minFiltersMessage } :=
  ⟨by decide, claim_C3_minimum_filter_gate { primaryPhone := "123" } (by decide)⟩

/-- Mapping the field projection over a conditional singleton error list. -/
theorem map_field_if (c : Prop) [Decidable c] (e : ValidationError) :
    (if c then [e] else []).map ValidationError.field = if c then [e.field] else [] := by
  split <;> simp

/-- C4: with at least 2 filled groups and at least one malformed field
among primaryPhone, secondaryPhone, rfc and postalCode,
`validateSearchFilters` returns `isValid = false`, no general error, and
exactly one field-scoped error per malformed field, all accumulated in
rule order. -/
theorem claim_C4_format_errors_accumulate (f : CustomerSearchFilters)
    (h2 : 2 ≤ countFilledFilters f)
    (hm : (badPrimaryPhone f || badSecondaryPhone f || badRfc f || badPostalCode f) = true) :
    (validateSearchFilters f).isValid = false ∧
    (validateSearchFilters f).generalError = none ∧
    (validateSearchFilters f).errors.map ValidationError.field =
      (if badPrimaryPhone f then ["primaryPhone"] else [])
      ++ (if badSecondaryPhone f then ["secondaryPhone"] else [])
      ++ (if badRfc f then ["rfc"] else [])
      ++ (if badPostalCode f then ["postalCode"] else []) := by
  have hlt : ¬ countFilledFilters f < 2 := by omega
  unfold validateSearchFilters
  unfold badPrimaryPhone badSecondaryPhone badRfc badPostalCode at hm ⊢
  rw [if_neg hlt]
  by_cases hb1 : (f.primaryPhone != "" && !validatePhoneNumber f.primaryPhone) = true <;>
  by_cases hb2 : (f.secondaryPhone != "" && !validatePhoneNumber f.secondaryPhone) = true <;>
  by_cases hb3 : (f.rfc != "" && !validateRFC f.rfc) = true <;>
  by_cases hb4 : (f.postalCode != "" && !validatePostalCode f.postalCode) = true <;>
    simp_all [map_field_if]

/-- Witness for C4: two filled groups, with malformed primary phone, RFC
and postal code: three accumulated field errors and no general error. -/
theorem claim_C4_witness :
    2 ≤ countFilledFilters { primaryPhone := "123", rfc := "XX", postalCode := "12" } ∧
      (validateSearchFilters { primaryPhone := "123", rfc := "XX", postalCode := "12" }).isValid
          = false ∧
      (validateSearchFilters { primaryPhone := "123", rfc := "XX", postalCode := "12" }).generalError
          = none ∧
      (validateSearchFilters { primaryPhone := "123", rfc := "XX", postalCode := "12" }).errors.map
          ValidationError.field = ["primaryPhone", "rfc", "postalCode"] := by
  refine ⟨by decide, ?_⟩
  have h := claim_C4_format_errors_accumulate
    { primaryPhone := "123", rfc := "XX", postalCode := "12" } (by decide) (by decide)
  exact ⟨h.1, h.2.1, h.2.2.trans (by decide)⟩

/-- C7: `validateCardForTransaction` checks length, then expiration, then
usability, returns the error of the first failing check, and returns
`isValid = true` exactly when all three checks pass. -/
theorem claim_C7_transaction_gate_ordering (card : TransactionCard)
    (currentMonth currentYear : Int) :
    ((validateCardForTransaction card currentMonth currentYear).isValid = true ↔
       (isValidCardLength card.cardNumber = true ∧
        isCardExpired card.expirationDate currentMonth currentYear = false ∧
        isCardUsable card.status = true)) ∧
    (isValidCardLength card.cardNumber = false →
       validateCardForTransaction card currentMonth currentYear =
         { isValid := false, error := some "Número de tarjeta inválido" }) ∧
    (isValidCardLength card.cardNumber = true →
     isCardExpired card.expirationDate currentMonth currentYear = true →
       validateCardForTransaction card currentMonth currentYear =
         { isValid := false, error := some "La tarjeta ha expirado" }) ∧
    (isValidCardLength card.cardNumber = true →
     isCardExpired card.expirationDate currentMonth currentYear = false →
     isCardUsable card.status = false →
       validateCardForTransaction card currentMonth currentYear =
         { isValid := false,
           error := some ("La tarjeta está " ++ card.status ++
             ". Solo tarjetas activas pueden ser utilizadas.") }) := by
  unfold validateCardForTransaction
  by_cases h1 : isValidCardLength card.cardNumber <;>
  by_cases h2 : isCardExpired card.expirationDate currentMonth currentYear <;>
  by_cases h3 : isCardUsable card.status <;>
    simp [h1, h2, h3]

/-- Witness for C7: a card that is simultaneously too short, expired and
blocked reports the length error. -/
theorem claim_C7_witness :
    validateCardForTransaction
        { cardNumber := "123", expirationDate := "01/20", status := "blocked" } 10 2026 =
      { isValid := false, error := some "Número de tarjeta inválido" } :=
  (claim_C7_transaction_gate_ordering
    { cardNumber := "123", expirationDate := "01/20", status := "blocked" } 10 2026).2.1
    (by decide)

/-- C6 (code bug): the source's own comments state the MasterCard range
2221–2720 and the Discover range 622126–622925, but `getCardBrand`'s
regexes classify the 2220-prefixed number as MasterCard and miss 622130,
which falls inside the documented Discover range; a neighbouring in-range
prefix (622126) is detected, showing the hole is specific to the regex. -/
theorem claim_C6_brand_regex_divergence :
    getCardBrand "2220000000000000" = "MasterCard" ∧
    getCardBrand "6221300000000000" = "Unknown" ∧
    getCardBrand "6221260000000000" = "Discover" := by
  decide

/-- C10: `searchCustomers` never reads the dateOfBirth filter (the source
branch for it contains only a commented-out statement) nor the
clientNumber filter, so blanking both leaves the output unchanged. -/
theorem claim_C10_dead_filters (f : CustomerSearchFilters) (db : RegistryDb) :
    searchCustomers { f with dateOfBirth := "", clientNumber := "" } db =
      searchCustomers f db := rfl

/-- C5 counterexample: `"1/30"` is not in MM/YY form, yet with the current
date at October 2026 `isCardExpired` accepts it as the unexpired date
1/2030 and returns `false`, where the claim demands `true` for every
string not in MM/YY form. -/
theorem claim_C5_counterexample :
    specMMYYForm "1/30" = false ∧ isCardExpired "1/30" 10 2026 = false := by
  decide

/-- C5 as amended: `isCardExpired` returns `true` for the empty string, for
every string without a slash, and for every string whose month segment has
no leading integer; when the month segment parses to `em` and
`"20" ++ year-segment` parses to `ey`, it returns `true` exactly when
(`ey`, `em`) is strictly before the current month/year — in particular it
returns `false` for the current month/year and anything later. -/
theorem claim_C5_fail_closed_expiration (s : String) (cm cy : Int) :
    (s = "" → isCardExpired s cm cy = true) ∧
    (s.data.any (fun c => c == '/') = false → isCardExpired s cm cy = true) ∧
    (parseIntJS ((jsSplit s '/').headD "") = none → isCardExpired s cm cy = true) ∧
    (∀ em ey : Int, s.data.any (fun c => c == '/') = true →
      parseIntJS ((jsSplit s '/').headD "") = some em →
      parseIntJS ("20" ++ (jsSplit s '/').getD 1 "") = some ey →
      isCardExpired s cm cy = decide (ey < cy ∨ (ey = cy ∧ em < cm))) := by
  refine ⟨?_, ?_, ?_, ?_⟩
  · intro h
    subst h
    rfl
  · intro h
    simp [isCardExpired, h]
  · intro h
    by_cases hs : s = ""
    · subst hs
      rfl
    · by_cases hany : s.data.any (fun c => c == '/') = true
      · have hcond : (s == "" || !s.data.any (fun c => c == '/')) = false := by
          simp [hs, hany]
        unfold isCardExpired
        rw [hcond]
        simp only [Bool.false_eq_true, if_false]
        rw [h]
      · simp [isCardExpired, eq_false_of_ne_true hany]
  · intro em ey hany hm hy
    have hs : s ≠ "" := by
      intro h
      subst h
      simp at hany
    simp only [isCardExpired, hm, hy]
    have hcond : (s == "" || !s.data.any (fun c => c == '/')) = false := by
      simp [hs, hany]
    rw [hcond]
    simp only [Bool.false_eq_true, if_false]
    by_cases h1 : ey < cy <;> by_cases h2 : ey = cy <;> by_cases h3 : em < cm <;>
      simp [h1, h2, h3]

/-- Witness for C5: December 2030 seen from October 2026 parses as
month 12, year 2030 and is not expired. -/
theorem claim_C5_witness : isCardExpired "12/30" 10 2026 = false := by
  have h := (claim_C5_fail_closed_expiration "12/30" 10 2026).2.2.2 12 2030
    (by decide) (by decide) (by decide)
  exact h.trans (by decide)

/-- Inversion of a successful `getCustomerCards` run: either the customer
was absent and the views are empty, or the first matching customer row was
found and every view is the mapped card view. -/
theorem getCustomerCards_ok {db : CardsDb} {cid : String} {views : List CustomerCardData}
    (h : getCustomerCards db cid = Except.ok views) :
    views = [] ∨
    ∃ customer, (db.customers.filter (fun c => c.id == cid)).head? = some customer ∧
      views = (db.cards.filter (fun c => c.customerId == cid)).map
        (fun card => buildCardView customer card) := by
  unfold getCustomerCards at h
  cases hImpl : getCustomerCardsImpl db cid with
  | error e =>
    rw [hImpl] at h
    simp at h
  | ok v =>
    rw [hImpl] at h
    simp only [Except.ok.injEq] at h
    subst h
    unfold getCustomerCardsImpl at hImpl
    by_cases hcid : (cid == "" || jsTrim cid == "") = true
    · rw [if_pos hcid] at hImpl
      simp at hImpl
    · rw [if_neg hcid] at hImpl
      by_cases hfail : db.failure = true
      · simp only [dbSelect, if_pos hfail] at hImpl
        simp at hImpl
      · simp only [dbSelect, if_neg hfail] at hImpl
        cases hl : (db.customers.filter (fun c => c.id == cid)).take 1 with
        | nil =>
          rw [hl] at hImpl
          simp only [Except.ok.injEq] at hImpl
          left
          exact hImpl.symm
        | cons customer rest =>
          rw [hl] at hImpl
          simp only [Except.ok.injEq] at hImpl
          right
          refine ⟨customer, ?_, hImpl.symm⟩
          cases hf : db.customers.filter (fun c => c.id == cid) with
          | nil => rw [hf] at hl; simp at hl
          | cons a t =>
            rw [hf] at hl
            simp [List.take] at hl
            simp [hl.1]

/-- Inversion of a successful `getCardById` run returning a view: the view
is built from the head of the card–customer inner join. -/
theorem getCardById_ok {db : CardsDb} {cardId : String} {v : CustomerCardData}
    (h : getCardById db cardId = Except.ok (some v)) :
    ∃ card customer,
      ((db.cards.filter (fun c => c.id == cardId)).filterMap
        (fun card => (db.customers.find? (fun cu => cu.id == card.customerId)).map
          (fun cu => (card, cu)))).head? = some (card, customer) ∧
      v = buildCardView customer card := by
  unfold getCardById at h
  cases hImpl : getCardByIdImpl db cardId with
  | error e =>
    rw [hImpl] at h
    simp at h
  | ok w =>
    rw [hImpl] at h
    simp only [Except.ok.injEq] at h
    subst h
    unfold getCardByIdImpl at hImpl
    by_cases hcid : (cardId == "" || jsTrim cardId == "") = true
    · rw [if_pos hcid] at hImpl
      simp at hImpl
    · rw [if_neg hcid] at hImpl
      by_cases hfail : db.failure = true
      · simp only [dbSelect, if_pos hfail] at hImpl
        simp at hImpl
      · simp only [dbSelect, if_neg hfail] at hImpl
        cases hl : ((db.cards.filter (fun c => c.id == cardId)).filterMap
            (fun card => (db.customers.find? (fun cu => cu.id == card.customerId)).map
              (fun cu => (card, cu)))).take 1 with
        | nil =>
          rw [hl] at hImpl
          simp at hImpl
        | cons p rest =>
          rw [hl] at hImpl
          obtain ⟨card, customer⟩ := p
          simp only [Except.ok.injEq, Option.some.injEq] at hImpl
          refine ⟨card, customer, ?_, hImpl.symm⟩
          cases hf : (db.cards.filter (fun c => c.id == cardId)).filterMap
              (fun card => (db.customers.find? (fun cu => cu.id == card.customerId)).map
                (fun cu => (card, cu))) with
          | nil => rw [hf] at hl; simp at hl
          | cons a t =>
            rw [hf] at hl
            simp [List.take] at hl
            simp [hl.1]

/-- The last four digits of a string longer than 4 characters are a
strictly shorter string, hence different from it. -/
theorem getLastFourDigits_ne (s : String) (h : 4 < s.length) :
    getLastFourDigits s ≠ s := by
  have hs : ¬ s = "" := by
    intro he
    subst he
    exact absurd h (by decide)
  have hlen : ¬ s.length < 4 := by omega
  unfold getLastFourDigits
  rw [if_neg (by simp [hs, hlen])]
  intro he
  have hl := congrArg String.length he
  have hdrop : (s.data.drop (s.data.length - 4)).length = s.data.length - (s.data.length - 4) :=
    List.length_drop _ _
  simp only [String.length] at hl h
  rw [hdrop] at hl
  omega

/-- C1 counterexample: for the concrete registry `exCardsDb`, the view
returned by `getCustomerCards` carries the stored 16-character full card
number verbatim in its `cardNumber` field, so the claim that no field of a
returned view equals the stored full number is false. -/
theorem claim_C1_counterexample :
    getCustomerCards exCardsDb "c1" = Except.ok [buildCardView exCustomerJohn exCard] ∧
    (buildCardView exCustomerJohn exCard).cardNumber = exCard.number ∧
    4 < exCard.number.length := by
  refine ⟨by decide, rfl, by decide⟩

/-- C1 as amended: every view returned by `getCustomerCards` (and by
`getCardById`) stems from a stored card of the registry; its
`lastFourDigits` field is exactly `getLastFourDigits` of the stored number
— hence never the full number when that number is longer than 4
characters — while its `cardNumber` field carries the stored full number
(masking is deferred to the client). -/
theorem claim_C1_masked_views_amended :
    (∀ (db : CardsDb) (customerId : String) (views : List CustomerCardData),
      getCustomerCards db customerId = Except.ok views →
      ∀ v ∈ views, ∃ card, card ∈ db.cards ∧ card.customerId = customerId ∧
        v.cardNumber = card.number ∧
        v.lastFourDigits = getLastFourDigits card.number ∧
        (4 < card.number.length → v.lastFourDigits ≠ card.number)) ∧
    (∀ (db : CardsDb) (cardId : String) (v : CustomerCardData),
      getCardById db cardId = Except.ok (some v) →
      ∃ card, card ∈ db.cards ∧ card.id = cardId ∧
        v.cardNumber = card.number ∧
        v.lastFourDigits = getLastFourDigits card.number ∧
        (4 < card.number.length → v.lastFourDigits ≠ card.number)) := by
  constructor
  · intro db customerId views hok v hv
    rcases getCustomerCards_ok hok with h | ⟨customer, _, h⟩
    · subst h
      simp at hv
    · subst h
      obtain ⟨card, hcard, hbuild⟩ := List.mem_map.mp hv
      obtain ⟨hmem, hcid⟩ := List.mem_filter.mp hcard
      refine ⟨card, hmem, by simpa using hcid, ?_, ?_, ?_⟩
      · rw [← hbuild]
        rfl
      · rw [← hbuild]
        rfl
      · intro hlong
        rw [← hbuild]
        exact getLastFourDigits_ne card.number hlong
  · intro db cardId v hok
    obtain ⟨card, customer, hhead, hbuild⟩ := getCardById_ok hok
    have hmem : (card, customer) ∈ (db.cards.filter (fun c => c.id == cardId)).filterMap
        (fun card => (db.customers.find? (fun cu => cu.id == card.customerId)).map
          (fun cu => (card, cu))) := by
      cases hl : (db.cards.filter (fun c => c.id == cardId)).filterMap
          (fun card => (db.customers.find? (fun cu => cu.id == card.customerId)).map
            (fun cu => (card, cu))) with
      | nil => rw [hl] at hhead; simp at hhead
      | cons a t =>
        rw [hl] at hhead
        simp only [List.head?] at hhead
        rw [List.mem_cons]
        left
        exact (Option.some.injEq _ _ ▸ hhead).symm
    obtain ⟨card', hcard', hmap⟩ := List.mem_filterMap.mp hmem
    obtain ⟨cu, _, hpair⟩ := Option.map_eq_some'.mp hmap
    obtain ⟨hc1, _⟩ := Prod.mk.injEq .. ▸ hpair
    subst hc1
    obtain ⟨hmem', hid⟩ := List.mem_filter.mp hcard'
    refine ⟨card', hmem', by simpa using hid, ?_, ?_, ?_⟩
    · rw [hbuild]
      rfl
    · rw [hbuild]
      rfl
    · intro hlong
      rw [hbuild]
      exact getLastFourDigits_ne card'.number hlong

/-- Witness for C1 (amended): instantiated on the concrete registry, the
single returned view's `lastFourDigits` is the last four digits of the
stored number and differs from the 16-character stored number. -/
theorem claim_C1_witness :
    ∃ card, card ∈ exCardsDb.cards ∧ card.customerId = "c1" ∧
      (buildCardView exCustomerJohn exCard).cardNumber = card.number ∧
      (buildCardView exCustomerJohn exCard).lastFourDigits = getLastFourDigits card.number ∧
      (4 < card.number.length →
        (buildCardView exCustomerJohn exCard).lastFourDigits ≠ card.number) :=
  claim_C1_masked_views_amended.1 exCardsDb "c1" [buildCardView exCustomerJohn exCard]
    (by decide) (buildCardView exCustomerJohn exCard) (by simp)

/-- C8 counterexample: for the customer "John Doe" with no middle name,
the cardholder name built by `getCustomerCards` is `"John  Doe"` with two
consecutive interior spaces — `trim` does not collapse them — so the claim
that a missing middle name leaves no extra whitespace is false. -/
theorem claim_C8_counterexample :
    getCustomerCards exCardsDb "c1" = Except.ok [buildCardView exCustomerJohn exCard] ∧
    (buildCardView exCustomerJohn exCard).cardholderName = "John  Doe" ∧
    "John  Doe" ≠ "John Doe" := by
  refine ⟨by decide, by decide, by decide⟩

/-- C8 as amended: the cardholder name of every view built by
`getCustomerCards` (and by `getCardById`) is the customer's first name,
middle name (empty when absent) and last name interpolated with single
spaces and trimmed only at the ends; with a missing middle name the two
interpolation spaces remain side by side between first and last name. -/
theorem claim_C8_cardholder_name_amended :
    (∀ (db : CardsDb) (customerId : String) (views : List CustomerCardData),
      getCustomerCards db customerId = Except.ok views →
      ∀ v ∈ views, ∃ customer,
        (db.customers.filter (fun c => c.id == customerId)).head? = some customer ∧
        v.cardholderName = jsTrim (customer.firstName ++ " " ++
          (customer.middleName.getD "") ++ " " ++ customer.lastName)) ∧
    (∀ (db : CardsDb) (cardId : String) (v : CustomerCardData),
      getCardById db cardId = Except.ok (some v) →
      ∃ card customer, card ∈ db.cards ∧ card.id = cardId ∧
        db.customers.find? (fun cu => cu.id == card.customerId) = some customer ∧
        v.cardholderName = jsTrim (customer.firstName ++ " " ++
          (customer.middleName.getD "") ++ " " ++ customer.lastName)) := by
  constructor
  · intro db customerId views hok v hv
    rcases getCustomerCards_ok hok with h | ⟨customer, hhead, h⟩
    · subst h
      simp at hv
    · subst h
      obtain ⟨card, _, hbuild⟩ := List.mem_map.mp hv
      exact ⟨customer, hhead, by rw [← hbuild]; rfl⟩
  · intro db cardId v hok
    obtain ⟨card, customer, hhead, hbuild⟩ := getCardById_ok hok
    have hmem : (card, customer) ∈ (db.cards.filter (fun c => c.id == cardId)).filterMap
        (fun card => (db.customers.find? (fun cu => cu.id == card.customerId)).map
          (fun cu => (card, cu))) := by
      cases hl : (db.cards.filter (fun c => c.id == cardId)).filterMap
          (fun card => (db.customers.find? (fun cu => cu.id == card.customerId)).map
            (fun cu => (card, cu))) with
      | nil => rw [hl] at hhead; simp at hhead
      | cons a t =>
        rw [hl] at hhead
        simp only [List.head?] at hhead
        rw [List.mem_cons]
        left
        exact (Option.some.injEq _ _ ▸ hhead).symm
    obtain ⟨card', hcard', hmap⟩ := List.mem_filterMap.mp hmem
    obtain ⟨cu, hfind, hpair⟩ := Option.map_eq_some'.mp hmap
    obtain ⟨hc1, hc2⟩ := Prod.mk.injEq .. ▸ hpair
    subst hc1
    rw [hc2] at hfind
    obtain ⟨hmem', hid⟩ := List.mem_filter.mp hcard'
    exact ⟨card', customer, hmem', by simpa using hid, hfind, by rw [hbuild]; rfl⟩

/-- Witness for C8 (amended): on the concrete registry, the returned
view's cardholder name is the trimmed space-interpolation for the found
customer row. -/
theorem claim_C8_witness :
    ∃ customer,
      (exCardsDb.customers.filter (fun c => c.id == "c1")).head? = some customer ∧
      (buildCardView exCustomerJohn exCard).cardholderName =
        jsTrim (customer.firstName ++ " " ++ (customer.middleName.getD "") ++ " "
          ++ customer.lastName) :=
  claim_C8_cardholder_name_amended.1 exCardsDb "c1" [buildCardView exCustomerJohn exCard]
    (by decide) (buildCardView exCustomerJohn exCard) (by simp)

/-- C9: with a healthy data-access layer, a well-formed customer id absent
from the registry yields the empty list from `getCustomerCards` (and an
absent card id yields a not-found `none` from `getCardById`) without
raising, while a failing data-access layer makes both actions raise their
single fetch-failure condition — an outcome distinct from the empty
success of a customer with zero cards. -/
theorem claim_C9_absent_and_failure (db : CardsDb) (customerId cardId : String) :
    (db.failure = false → jsTrim customerId ≠ "" →
      (∀ c ∈ db.customers, c.id ≠ customerId) →
      getCustomerCards db customerId = Except.ok []) ∧
    (db.failure = false → jsTrim cardId ≠ "" →
      (∀ c ∈ db.cards, c.id ≠ cardId) →
      getCardById db cardId = Except.ok none) ∧
    (db.failure = true →
      getCustomerCards db customerId = Except.error "Failed to fetch customer cards" ∧
      getCardById db cardId = Except.error "Failed to fetch card") ∧
    (Except.error "Failed to fetch customer cards" ≠
      (Except.ok [] : Except String (List CustomerCardData))) := by
  refine ⟨?_, ?_, ?_, by simp⟩
  · intro hfail htrim habsent
    have hcid : customerId ≠ "" := by
      intro h
      subst h
      exact htrim rfl
    have hfilter : db.customers.filter (fun c => c.id == customerId) = [] := by
      rw [List.filter_eq_nil_iff]
      intro c hc
      simpa using habsent c hc
    unfold getCustomerCards getCustomerCardsImpl
    rw [if_neg (by simp [hcid, htrim])]
    simp only [dbSelect, if_neg (by simp [hfail] : ¬ db.failure = true), hfilter]
    rfl
  · intro hfail htrim habsent
    have hcid : cardId ≠ "" := by
      intro h
      subst h
      exact htrim rfl
    have hfilter : db.cards.filter (fun c => c.id == cardId) = [] := by
      rw [List.filter_eq_nil_iff]
      intro c hc
      simpa using habsent c hc
    unfold getCardById getCardByIdImpl
    rw [if_neg (by simp [hcid, htrim])]
    simp only [dbSelect, if_neg (by simp [hfail] : ¬ db.failure = true), hfilter]
    rfl
  · intro hfail
    constructor
    · unfold getCustomerCards getCustomerCardsImpl
      by_cases hcid : (customerId == "" || jsTrim customerId == "") = true
      · rw [if_pos hcid]
      · rw [if_neg hcid]
        simp only [dbSelect, if_pos hfail]
    · unfold getCardById getCardByIdImpl
      by_cases hcid : (cardId == "" || jsTrim cardId == "") = true
      · rw [if_pos hcid]
      · rw [if_neg hcid]
        simp only [dbSelect, if_pos hfail]

/-- Witness for C9: concrete absent ids give empty successes on the
healthy registry, and the failing registry raises both fetch errors. -/
theorem claim_C9_witness :
    getCustomerCards exCardsDb "missing" = Except.ok [] ∧
    getCardById exCardsDb "missing" = Except.ok none ∧
    getCustomerCards exCardsDbFail "c1" = Except.error "Failed to fetch customer cards" ∧
    getCardById exCardsDbFail "card-1" = Except.error "Failed to fetch card" :=
  ⟨(claim_C9_absent_and_failure exCardsDb "missing" "x").1 rfl (by decide) (by decide),
   (claim_C9_absent_and_failure exCardsDb "x" "missing").2.1 rfl (by decide) (by decide),
   ((claim_C9_absent_and_failure exCardsDbFail "c1" "card-1").2.2.1 rfl).1,
   ((claim_C9_absent_and_failure exCardsDbFail "c1" "card-1").2.2.1 rfl).2⟩

/-- Membership of an id in the mapped-and-filtered id list of a narrowing
pass, re-expressed as an existential scan of the source table. -/
theorem any_map_filter {α : Type} (l : List α) (g : α → String) (q : α → Bool) (x : String) :
    ((l.filter q).map g).any (fun y => y == x) = l.any (fun a => g a == x && q a) := by
  induction l with
  | nil => rfl
  | cons a t ih =>
    by_cases hq : q a = true
    · simp [List.filter_cons, hq, ih]
    · have hq' : q a = false := eq_false_of_ne_true hq
      simp [List.filter_cons, hq', ih]

/-- A conditional narrowing step is one filter with a guarded predicate. -/
theorem ite_filter {α : Type} (c : Bool) (l : List α) (p : α → Bool) :
    (if c = true then l.filter p else l) = l.filter (fun a => !c || p a) := by
  cases c
  · simp
  · simp

/-- The conjunction of the built name conditions, with unsupplied filters
imposing no constraint. -/
theorem nameConditions_all (f : CustomerSearchFilters) (c : CustomerRow) :
    (nameConditions f).all (fun p => p c) =
      ((f.firstName == "" || likeContains c.firstName f.firstName)
       && (f.lastName == "" || likeContains c.lastName f.lastName)
       && (f.secondLastName == "" || likeContainsOpt c.middleName f.secondLastName)) := by
  unfold nameConditions
  rcases Bool.eq_false_or_eq_true (f.firstName == "") with h1 | h1 <;>
  rcases Bool.eq_false_or_eq_true (f.lastName == "") with h2 | h2 <;>
  rcases Bool.eq_false_or_eq_true (f.secondLastName == "") with h3 | h3 <;>
  simp [h1, h2, h3, bne, Bool.and_assoc]

/-- The disjunction of the built phone conditions. -/
theorem phoneConditions_any (f : CustomerSearchFilters) (p : PhoneRow) :
    (phoneConditions f).any (fun q => q p) =
      ((f.primaryPhone != "" && p.number == f.primaryPhone)
       || (f.secondaryPhone != "" && p.number == f.secondaryPhone)) := by
  unfold phoneConditions
  rcases Bool.eq_false_or_eq_true (f.primaryPhone == "") with h1 | h1 <;>
  rcases Bool.eq_false_or_eq_true (f.secondaryPhone == "") with h2 | h2 <;>
  simp [h1, h2, bne]

/-- The disjunction of the built government-id conditions. -/
theorem govIdConditions_any (f : CustomerSearchFilters) (g : GovernmentIdRow) :
    (govIdConditions f).any (fun q => q g) =
      ((f.rfc != "" && g.idType == "RFC" && g.number == f.rfc)
       || (f.ife != "" && g.idType == "IFE" && g.number == f.ife)
       || (f.passport != "" && g.idType == "Passport" && g.number == f.passport)) := by
  unfold govIdConditions
  rcases Bool.eq_false_or_eq_true (f.rfc == "") with h1 | h1 <;>
  rcases Bool.eq_false_or_eq_true (f.ife == "") with h2 | h2 <;>
  rcases Bool.eq_false_or_eq_true (f.passport == "") with h3 | h3 <;>
  simp [h1, h2, h3, bne, Bool.and_assoc, Bool.or_assoc]

/-- The conjunction of the built address conditions. -/
theorem addressConditions_all (f : CustomerSearchFilters) (a : AddressRow) :
    (addressConditions f).all (fun q => q a) =
      ((f.stateId == "" || a.stateId == f.stateId)
       && (f.municipalityId == "" || a.municipalityId == f.municipalityId)
       && (f.neighborhoodId == "" || eqOpt a.neighborhoodId f.neighborhoodId)
       && (f.postalCode == "" || eqOpt a.postalCode f.postalCode)) := by
  unfold addressConditions
  rcases Bool.eq_false_or_eq_true (f.stateId == "") with h1 | h1 <;>
  rcases Bool.eq_false_or_eq_true (f.municipalityId == "") with h2 | h2 <;>
  rcases Bool.eq_false_or_eq_true (f.neighborhoodId == "") with h3 | h3 <;>
  rcases Bool.eq_false_or_eq_true (f.postalCode == "") with h4 | h4 <;>
  simp [h1, h2, h3, h4, bne, Bool.and_assoc]

set_option maxHeartbeats 1000000 in
/-- The sequential narrowing of `searchCustomers` computes exactly the
single-predicate filter described by the specification. -/
theorem searchNarrow_eq_filter (f : CustomerSearchFilters) (db : RegistryDb) :
    searchNarrow f db = db.customers.filter (specSearchPredicate f db) := by
  unfold searchNarrow
  simp only []
  rw [ite_filter, ite_filter, ite_filter, List.filter_filter, List.filter_filter,
    List.filter_filter]
  refine List.filter_congr ?_
  intro c hc
  rw [Bool.eq_iff_iff]
  simp only [nameConditions_all, any_map_filter, phoneConditions_any, govIdConditions_any,
    addressConditions_all, specSearchPredicate, bne, Bool.not_or, Bool.not_not,
    Bool.and_assoc, Bool.or_assoc,
    Bool.and_eq_true, Bool.or_eq_true, beq_iff_eq, Bool.not_eq_true']
  tauto

/-- C2: for every filter set and registry state, the result set produced by
`searchCustomers`' sequential narrowing equals the set defined by the
single predicate `specSearchPredicate` — AND semantics across filter
categories, OR within the phone pair, OR among the rfc/ife/passport
conditions, and AND among the supplied address predicates on one address
record — with each surviving customer enriched independently. -/
theorem claim_C2_search_refinement (f : CustomerSearchFilters) (db : RegistryDb) :
    (searchCustomers f db).data =
      (db.customers.filter (specSearchPredicate f db)).map (enrichCustomer db) := by
  show (searchNarrow f db).map (enrichCustomer db) = _
  rw [searchNarrow_eq_filter]

end BankingApp
